import Mathlib

/-!
Verification development for the moto repository slice:
- `moto/stepfunctions/parser/asl/component/state/choice/comparison/comparison_func.py`
- `moto/servicediscovery/models.py`
The Python code is shallowly embedded: stateful methods become explicit
state-passing functions, raised exceptions become `Except` errors.
-/

namespace StepFn

/-- A JSON value as it appears on the evaluation stack.  Resolved JSONPath
values in the comparison engine are strings, numbers, booleans or null. -/
inductive JsonVal where
  | vStr : String → JsonVal
  | vInt : Int → JsonVal
  | vBool : Bool → JsonVal
  | vNull : JsonVal
deriving DecidableEq, Repr

/-- Python's `str()` applied to a JSON-decoded value, as used by
`ComparisonFunc._string_equals` (`str(val)`): identity on strings,
decimal rendering of numbers, `True`/`False` for booleans, `None` for null. -/
def pyStr : JsonVal → String
  | .vStr s => s
  | .vInt n => toString n
  | .vBool true => "True"
  | .vBool false => "False"
  | .vNull => "None"

/-- Python `==` between a `str` left operand and a JSON-decoded right operand:
equal only when the right operand is also a `str` with the same characters
(Python cross-type equality between `str` and `int`/`bool`/`None` is `False`). -/
def pyEqStrJson (s : String) (v : JsonVal) : Bool :=
  match v with
  | .vStr t => s = t
  | _ => false

/-- Modelled from the spec: the class
`moto.stepfunctions.parser.asl.eval.environment.Environment` is not under
`src/`; spec sections 2 and 3 describe it as the per-execution mutable context
holding the current JSON payload, a transient operand stack (LIFO), a
contextual variable store and an event accumulator.  Only `stack` is touched
by the comparison code under `src/`. -/
structure Environment where
  stack : List JsonVal
  payload : JsonVal
  context : List (String × JsonVal)
  events : List String
deriving DecidableEq, Repr

/-- Embeds `ComparisonFunc._string_equals`: pops the resolved value from the
environment stack, compares `str(val) == value` and pushes the boolean
result.  The stack top is the list head; `none` models the `IndexError`
that `list.pop()` raises on an empty stack. -/
def string_equals (env : Environment) (value : JsonVal) : Option Environment :=
  match env.stack with
  | [] => none
  | valTop :: rest =>
      let res : Bool := pyEqStrJson (pyStr valTop) value
      some { env with stack := .vBool res :: rest }

/-- Embeds `ComparisonOperatorType` restricted to the operators whose implementation
is under `src/` (only `StringEquals` is). -/
inductive ComparisonOperatorType where
  | StringEquals
deriving DecidableEq, Repr

/-- Embeds `ComparisonFunc`: an operator type together with the rule's literal
comparison operand (`self.value`). -/
structure ComparisonFunc where
  operator_type : ComparisonOperatorType
  value : JsonVal
deriving DecidableEq, Repr

/-- Embeds `ComparisonFunc._eval_body`: dispatches on the operator type and
evaluates the operator against the environment and the stored operand. -/
def ComparisonFunc.eval_body (c : ComparisonFunc) (env : Environment) :
    Option Environment :=
  match c.operator_type with
  | .StringEquals => string_equals env c.value

/-- A JSON object input payload for a Choice state, as a key/value list. -/
def JsonObject := List (String × JsonVal)

/-- Modelled from the spec: JSONPath resolution of a rule's `Variable`
reference is not under `src/`; per spec section 4.2 a rule evaluation pushes
"the value resolved from the rule's `Variable` path".  For a top-level field
reference `$.k` on an object input this is the value at key `k`. -/
def resolveVariable (input : JsonObject) (key : String) : Option JsonVal :=
  match input with
  | [] => none
  | (k, v) :: rest => if k = key then some v else resolveVariable rest key

/-- A Choice rule: `Variable` path (top-level key), comparison function and
target `Next` state (spec section 3, `ChoiceRule`). -/
structure ChoiceRule where
  variable_key : String
  func : ComparisonFunc
  next_state : String
deriving Repr

/-- Modelled from the spec: the Choice-state executor is not under `src/`;
per spec sections 4.2 and 4.4 it pushes the resolved variable value, runs the
comparison through the engine, and pops the boolean result off the stack. -/
def evalRule (input : JsonObject) (rule : ChoiceRule) : Option Bool :=
  match resolveVariable input rule.variable_key with
  | none => none
  | some v =>
      match rule.func.eval_body { stack := [v], payload := .vNull,
                                  context := [], events := [] } with
      | some env' =>
          match env'.stack with
          | .vBool b :: _ => some b
          | _ => none
      | none => none

/-- Modelled from the spec: the Choice-state executor is not under `src/`;
per spec section 4.4 it "evaluates rules top-to-bottom; first match wins and
supplies Next", and with no match the `Default` state is chosen. -/
def choiceNext (input : JsonObject) (rules : List ChoiceRule)
    (defaultNext : String) : Option String :=
  match rules with
  | [] => some defaultNext
  | r :: rs =>
      match evalRule input r with
      | some true => some r.next_state
      | some false => choiceNext input rs defaultNext
      | none => none

end StepFn

namespace SD

/-- A Python JSON-ish value for the configuration dictionaries carried by
namespaces and services (`dns_properties`, `http_properties`, ...). -/
inductive PyVal where
  | s : String → PyVal
  | d : List (String × PyVal) → PyVal
deriving Repr, BEq

/-- Lookup in a Python `dict` modelled as an association list
(`d[k]` / `d.get(k)`). -/
def alookup {V : Type} (m : List (String × V)) (k : String) : Option V :=
  match m with
  | [] => none
  | (k2, v) :: rest => if k2 = k then some v else alookup rest k

/-- Python `d[k] = v`: replace the value in place when the key is present
(insertion order is preserved), append a new entry otherwise. -/
def pyInsert {V : Type} (m : List (String × V)) (k : String) (v : V) :
    List (String × V) :=
  match m with
  | [] => [(k, v)]
  | (k2, v2) :: rest =>
      if k2 = k then (k2, v) :: rest else (k2, v2) :: pyInsert rest k v

/-- Python `del d[k]` (membership is always checked first at call sites). -/
def pyErase {V : Type} (m : List (String × V)) (k : String) :
    List (String × V) :=
  m.filter (fun p => !(p.1 = k : Bool))

/-- Setting a key on a `PyVal` dictionary (`cfg["DnsRecords"] = recs`). -/
def pyDictSet (cfg : PyVal) (k : String) (v : PyVal) : PyVal :=
  match cfg with
  | .d m => .d (pyInsert m k v)
  | other => other

/-- Modelled from the spec: `moto.utilities.utils.get_partition` is not under
`src/`; per spec section 1 identifier/ARN generation belongs to the external
CRUD collaborator.  Standard regions live in the `aws` partition. -/
def get_partition (_region : String) : String := "aws"

/-- The exceptions raised by `moto/servicediscovery/models.py` (the
`exceptions` module itself is not under `src/`; constructor arguments mirror
the call sites in `models.py`). -/
inductive SDError where
  | NamespaceNotFound : String → SDError
  | ServiceNotFound : String → SDError
  | InstanceNotFound : String → SDError
  | OperationNotFound : SDError
  | InvalidInput : String → SDError
  | CustomHealthNotFound : String → SDError
  | ConflictingDomainExists : String → SDError
deriving DecidableEq, Repr

/-- Embeds `Namespace.__init__`: `rid` stands for the generated `random_id(20)` and
`now` for `unix_time()` (both external nondeterminism, passed explicitly). -/
structure Namespace where
  id : String
  arn : String
  name : String
  ns_type : String
  creator_request_id : String
  description : String
  dns_properties : PyVal
  http_properties : PyVal
  vpc : Option String
  created : Nat
  updated : Nat
deriving Repr, BEq

def Namespace.make (account_id region name ns_type creator_request_id
    description : String) (dns_properties http_properties : PyVal)
    (vpc : Option String) (rid : String) (now : Nat) : Namespace :=
  { id := "ns-" ++ rid
    arn := "arn:" ++ get_partition region ++ ":servicediscovery:" ++ region
             ++ ":" ++ account_id ++ ":namespace/ns-" ++ rid
    name := name
    ns_type := ns_type
    creator_request_id := creator_request_id
    description := description
    dns_properties := dns_properties
    http_properties := http_properties
    vpc := vpc
    created := now
    updated := now }

/-- Embeds `ServiceInstance.__init__`: `rid` stands for the generated
`random_id(32)` used when `creator_request_id` is absent or falsy (Python
treats `None` and `""` as falsy).  `health_status` starts `"HEALTHY"`. -/
structure ServiceInstance where
  service_id : String
  instance_id : String
  attributes : List (String × String)
  creator_request_id : String
  health_status : String
deriving Repr, BEq

def ServiceInstance.make (service_id instance_id : String)
    (creator_request_id : Option String)
    (attributes : Option (List (String × String))) (rid : String) :
    ServiceInstance :=
  { service_id := service_id
    instance_id := instance_id
    attributes := match attributes with
      | some a => if a = [] then [] else a
      | none => []
    creator_request_id := match creator_request_id with
      | some c => if c = "" then rid else c
      | none => rid
    health_status := "HEALTHY" }

/-- Embeds `Service.__init__` with `rid` for the generated `random_id(8)` and `now`
for `unix_time()`. -/
structure Service where
  id : String
  arn : String
  name : String
  namespace_id : String
  description : String
  creator_request_id : String
  dns_config : Option PyVal
  health_check_config : PyVal
  health_check_custom_config : PyVal
  service_type : String
  created : Nat
  instances : List ServiceInstance
  instances_revision : List (String × Nat)
deriving Repr, BEq

def Service.make (account_id region name namespace_id description
    creator_request_id : String) (dns_config : Option PyVal)
    (health_check_config health_check_custom_config : PyVal)
    (service_type : String) (rid : String) (now : Nat) : Service :=
  { id := "srv-" ++ rid
    arn := "arn:" ++ get_partition region ++ ":servicediscovery:" ++ region
             ++ ":" ++ account_id ++ ":service/srv-" ++ rid
    name := name
    namespace_id := namespace_id
    description := description
    creator_request_id := creator_request_id
    dns_config := dns_config
    health_check_config := health_check_config
    health_check_custom_config := health_check_custom_config
    service_type := service_type
    created := now
    instances := []
    instances_revision := [] }

/-- The `details` dictionary accepted by `Service.update`: each field is
`some` exactly when the corresponding key is present in the dict
(`"Description"`, `"DnsConfig"` with its `"DnsRecords"` entry,
`"HealthCheckConfig"`). -/
structure UpdateDetails where
  description : Option String
  dns_records : Option PyVal
  health_check_config : Option PyVal
deriving Repr

/-- Embeds `Service.update`: sets the description when given; when `DnsConfig` is
present merges its `DnsRecords` into the (possibly re-created) dns_config
dict, otherwise deletes dns_config entirely; replaces the health-check
config when given. -/
def Service.updateDetails (sv : Service) (details : UpdateDetails) : Service :=
  let sv := match details.description with
    | some dsc => { sv with description := dsc }
    | none => sv
  let sv := match details.dns_records with
    | some recs =>
        let cfg := match sv.dns_config with
          | some c => c
          | none => PyVal.d []
        { sv with dns_config := some (pyDictSet cfg "DnsRecords" recs) }
    | none => { sv with dns_config := none }
  match details.health_check_config with
  | some hcc => { sv with health_check_config := hcc }
  | none => sv

/-- Embeds `Operation.__init__`: id is `f"{random_id(32)}-{random_id(8)}"` with the
two random parts passed as `rid1`, `rid2`; status starts `"SUCCESS"`. -/
structure Operation where
  id : String
  status : String
  operation_type : String
  created : Nat
  updated : Nat
  targets : List (String × String)
deriving Repr, BEq

def Operation.make (operation_type : String) (targets : List (String × String))
    (rid1 rid2 : String) (now : Nat) : Operation :=
  { id := rid1 ++ "-" ++ rid2
    status := "SUCCESS"
    operation_type := operation_type
    created := now
    updated := now
    targets := targets }

/-- Embeds `ServiceDiscoveryBackend` state: the three keyed stores plus the region
and account the ARNs are built from.  The `TaggingService` collaborator is
kept as a log of `tag_resource(arn, tags)` calls. -/
structure Backend where
  region_name : String
  account_id : String
  operations : List (String × Operation)
  namespaces : List (String × Namespace)
  services : List (String × Service)
  tagger : List (String × List (String × String))
deriving Repr

/-- Embeds `TaggingService.tag_resource` is external; `if tags:` guards the call, so
an empty tag list is a no-op.  The call is recorded in the log. -/
def tag_resource_log (b : Backend) (arn : String)
    (tags : List (String × String)) : Backend :=
  if tags = [] then b else { b with tagger := b.tagger ++ [(arn, tags)] }

/-- Embeds `ServiceDiscoveryBackend.list_namespaces`: `self.namespaces.values()`. -/
def list_namespaces (b : Backend) : List Namespace :=
  b.namespaces.map (·.2)

/-- Embeds `ServiceDiscoveryBackend.list_services`: `self.services.values()`. -/
def list_services (b : Backend) : List Service :=
  b.services.map (·.2)

/-- Embeds `ServiceDiscoveryBackend._create_operation`: builds the `Operation`,
stores it under its generated id and returns that id. -/
def create_operation (b : Backend) (op_type : String)
    (targets : List (String × String)) (rid1 rid2 : String) (now : Nat) :
    String × Backend :=
  let operation := Operation.make op_type targets rid1 rid2 now
  (operation.id, { b with operations := pyInsert b.operations operation.id operation })

/-- Embeds `ServiceDiscoveryBackend.create_http_namespace`: builds an HTTP
namespace, stores it, optionally tags it, records a `CREATE_NAMESPACE`
operation targeting the namespace id, and returns the operation id. -/
def create_http_namespace (b : Backend) (name creator_request_id
    description : String) (tags : List (String × String))
    (nsRid opRid1 opRid2 : String) (now : Nat) : String × Backend :=
  let ns := Namespace.make b.account_id b.region_name name "HTTP"
    creator_request_id description (PyVal.d [("SOA", PyVal.d [])])
    (PyVal.d [("HttpName", PyVal.s name)]) none nsRid now
  let b := { b with namespaces := pyInsert b.namespaces ns.id ns }
  let b := tag_resource_log b ns.arn tags
  create_operation b "CREATE_NAMESPACE" [("NAMESPACE", ns.id)]
    opRid1 opRid2 now

/-- Embeds `ServiceDiscoveryBackend.delete_namespace`: raises `NamespaceNotFound`
when the id is absent, otherwise deletes the entry and records a
`DELETE_NAMESPACE` operation targeting the deleted id. -/
def delete_namespace (b : Backend) (namespace_id : String)
    (rid1 rid2 : String) (now : Nat) : Except SDError String × Backend :=
  match alookup b.namespaces namespace_id with
  | none => (.error (.NamespaceNotFound namespace_id), b)
  | some _ =>
      let b := { b with namespaces := pyErase b.namespaces namespace_id }
      let (operation_id, b) := create_operation b "DELETE_NAMESPACE"
        [("NAMESPACE", namespace_id)] rid1 rid2 now
      (.ok operation_id, b)

/-- Embeds `ServiceDiscoveryBackend.get_namespace`: the stored namespace, or
`NamespaceNotFound`; the backend is returned untouched. -/
def get_namespace (b : Backend) (namespace_id : String) :
    Except SDError Namespace × Backend :=
  match alookup b.namespaces namespace_id with
  | none => (.error (.NamespaceNotFound namespace_id), b)
  | some ns => (.ok ns, b)

/-- Whether `list_operations` keeps an operation:
`op.targets.get("NAMESPACE") in self.namespaces` — a missing `"NAMESPACE"`
target yields Python `None`, which is never a key of the (string-keyed)
namespaces dict. -/
def operationKept (namespaces : List (String × Namespace)) (op : Operation) :
    Bool :=
  match alookup op.targets "NAMESPACE" with
  | some nid => (alookup namespaces nid).isSome
  | none => false

/-- Embeds `ServiceDiscoveryBackend.list_operations`: first rewrites
`self.operations` to keep only operations whose `"NAMESPACE"` target still
exists, then returns the remaining values. -/
def list_operations (b : Backend) : List Operation × Backend :=
  let ops := b.operations.filter (fun p => operationKept b.namespaces p.2)
  (ops.map (·.2), { b with operations := ops })

/-- Embeds `ServiceDiscoveryBackend.get_operation`. -/
def get_operation (b : Backend) (operation_id : String) :
    Except SDError Operation × Backend :=
  match alookup b.operations operation_id with
  | none => (.error .OperationNotFound, b)
  | some op => (.ok op, b)

/-- Embeds `ServiceDiscoveryBackend.create_service`: builds the service, stores it
under its generated id, optionally tags it, and returns the service itself
(no operation is recorded). -/
def create_service (b : Backend) (name namespace_id creator_request_id
    description : String) (dns_config : Option PyVal)
    (health_check_config health_check_custom_config : PyVal)
    (tags : List (String × String)) (service_type : String)
    (rid : String) (now : Nat) : Service × Backend :=
  let service := Service.make b.account_id b.region_name name namespace_id
    description creator_request_id dns_config health_check_config
    health_check_custom_config service_type rid now
  let b := { b with services := pyInsert b.services service.id service }
  let b := tag_resource_log b service.arn tags
  (service, b)

/-- Embeds `ServiceDiscoveryBackend.get_service`: the stored service, or
`ServiceNotFound`; the backend is returned untouched. -/
def get_service (b : Backend) (service_id : String) :
    Except SDError Service × Backend :=
  match alookup b.services service_id with
  | none => (.error (.ServiceNotFound service_id), b)
  | some sv => (.ok sv, b)

/-- Embeds `ServiceDiscoveryBackend.delete_service`: `self.services.pop(id, None)`
never raises. -/
def delete_service (b : Backend) (service_id : String) : Backend :=
  { b with services := pyErase b.services service_id }

/-- Embeds `ServiceDiscoveryBackend.update_service`: looks the service up (raising
`ServiceNotFound`), applies `Service.update` to it in place, and records an
`UPDATE_SERVICE` operation targeting the service id. -/
def update_service (b : Backend) (service_id : String)
    (details : UpdateDetails) (rid1 rid2 : String) (now : Nat) :
    Except SDError String × Backend :=
  match alookup b.services service_id with
  | none => (.error (.ServiceNotFound service_id), b)
  | some sv =>
      let sv := sv.updateDetails details
      let b := { b with services := pyInsert b.services service_id sv }
      let (operation_id, b) := create_operation b "UPDATE_SERVICE"
        [("SERVICE", sv.id)] rid1 rid2 now
      (.ok operation_id, b)

/-- Embeds `ServiceDiscoveryBackend.register_instance`: looks the service up,
appends a fresh `ServiceInstance`, bumps that instance id's revision
counter, and records a `REGISTER_INSTANCE` operation targeting the
instance id. -/
def register_instance (b : Backend) (service_id instance_id
    creator_request_id : String) (attributes : List (String × String))
    (instRid opRid1 opRid2 : String) (now : Nat) :
    Except SDError String × Backend :=
  match alookup b.services service_id with
  | none => (.error (.ServiceNotFound service_id), b)
  | some sv =>
      let inst := ServiceInstance.make service_id instance_id
        (some creator_request_id) (some attributes) instRid
      let sv := { sv with
        instances := sv.instances ++ [inst]
        instances_revision := pyInsert sv.instances_revision instance_id
          ((alookup sv.instances_revision instance_id).getD 0 + 1) }
      let b := { b with services := pyInsert b.services service_id sv }
      let (operation_id, b) := create_operation b "REGISTER_INSTANCE"
        [("INSTANCE", instance_id)] opRid1 opRid2 now
      (.ok operation_id, b)

/-- Embeds `list.remove` of the first instance found with the given id. -/
def removeFirstInstance (l : List ServiceInstance) (instance_id : String) :
    List ServiceInstance :=
  match l with
  | [] => []
  | i :: rest =>
      if i.instance_id = instance_id then rest
      else i :: removeFirstInstance rest instance_id

/-- Embeds `ServiceDiscoveryBackend.deregister_instance`: removes the first
instance with the given id, bumps its revision counter and records a
`DEREGISTER_INSTANCE` operation; raises `InstanceNotFound(service_id)` when
no instance matches. -/
def deregister_instance (b : Backend) (service_id instance_id : String)
    (rid1 rid2 : String) (now : Nat) : Except SDError String × Backend :=
  match alookup b.services service_id with
  | none => (.error (.ServiceNotFound service_id), b)
  | some sv =>
      if sv.instances.any (fun i => i.instance_id = instance_id) then
        let sv := { sv with
          instances := removeFirstInstance sv.instances instance_id
          instances_revision := pyInsert sv.instances_revision instance_id
            ((alookup sv.instances_revision instance_id).getD 0 + 1) }
        let b := { b with services := pyInsert b.services service_id sv }
        let (operation_id, b) := create_operation b "DEREGISTER_INSTANCE"
          [("INSTANCE", instance_id)] rid1 rid2 now
        (.ok operation_id, b)
      else (.error (.InstanceNotFound service_id), b)

/-- Embeds `ServiceDiscoveryBackend.list_instances`. -/
def list_instances (b : Backend) (service_id : String) :
    Except SDError (List ServiceInstance) × Backend :=
  match alookup b.services service_id with
  | none => (.error (.ServiceNotFound service_id), b)
  | some sv => (.ok sv.instances, b)

/-- Embeds `ServiceDiscoveryBackend.get_instance`: first instance with the given
id, `InstanceNotFound(service_id)` otherwise. -/
def get_instance (b : Backend) (service_id instance_id : String) :
    Except SDError ServiceInstance × Backend :=
  match alookup b.services service_id with
  | none => (.error (.ServiceNotFound service_id), b)
  | some sv =>
      match sv.instances.find? (fun i => i.instance_id = instance_id) with
      | some i => (.ok i, b)
      | none => (.error (.InstanceNotFound service_id), b)

/-- Python `isinstance(x, list)` applied to a value that is statically a
list: always `True`.  In `get_instances_health_status` the checked value is
a list on every path (the `None` default has just been replaced by a list
of ids), so the guard `if isinstance(instances, list): raise ...` fires
unconditionally. -/
def isPyList (_ : List String) : Bool := true

/-- Embeds `ServiceDiscoveryBackend.get_instances_health_status`: resolves the
service, defaults a `None` instance filter to all registered instance ids,
then hits `if isinstance(instances, list): raise InvalidInput(...)`; the
status-collection code below that guard is unreachable. -/
def get_instances_health_status (b : Backend) (service_id : String)
    (instances : Option (List String)) :
    Except SDError (List (String × String)) × Backend :=
  match alookup b.services service_id with
  | none => (.error (.ServiceNotFound service_id), b)
  | some sv =>
      let inst_ids : List String := match instances with
        | none => sv.instances.map (·.instance_id)
        | some l => l
      if isPyList inst_ids then
        (.error (.InvalidInput "Instances must be a list"), b)
      else
        let filtered := sv.instances.filter
          (fun i => inst_ids.contains i.instance_id)
        (.ok (filtered.map (fun i => (i.instance_id, i.health_status))), b)

/-- Sets the health status of the first instance with the given id
(`get_instance` returns the aliased object; the assignment mutates it in
place inside the service's instance list). -/
def setFirstInstanceStatus (l : List ServiceInstance)
    (instance_id status : String) : List ServiceInstance :=
  match l with
  | [] => []
  | i :: rest =>
      if i.instance_id = instance_id then
        { i with health_status := status } :: rest
      else i :: setFirstInstanceStatus rest instance_id status

/-- Embeds `ServiceDiscoveryBackend.update_instance_custom_health_status`: rejects
statuses outside {HEALTHY, UNHEALTHY}, then sets the health status of the
first instance with the given id (raising through `get_instance` paths). -/
def update_instance_custom_health_status (b : Backend)
    (service_id instance_id status : String) : Except SDError Unit × Backend :=
  if !(status = "HEALTHY" || status = "UNHEALTHY") then
    (.error (.CustomHealthNotFound service_id), b)
  else
    match alookup b.services service_id with
    | none => (.error (.ServiceNotFound service_id), b)
    | some sv =>
        if sv.instances.any (fun i => i.instance_id = instance_id) then
          let sv := { sv with
            instances := setFirstInstanceStatus sv.instances instance_id status }
          (.ok (), { b with services := pyInsert b.services service_id sv })
        else (.error (.InstanceNotFound service_id), b)

/-- Match of an instance against a parameter dict in `discover_instances`:
every parameter key must be present among the instance attributes with the
same value (`instance.attributes.get(param) != parameters[param]` breaks
the match; a missing attribute yields `None`, never equal to a string). -/
def matchesParams (params : List (String × String)) (inst : ServiceInstance) :
    Bool :=
  params.all (fun p => alookup inst.attributes p.1 = some p.2)

/-- Embeds the first filtering loop of `discover_instances`: an instance is
skipped when its own health status is outside {ALL, HEALTHY_OR_ELSE_ALL} and
differs from the requested `health_status`; surviving the health test with
status HEALTHY sets `has_healthy` (even when the query-parameter test then
drops the instance). -/
def healthFilterLoop (health_status : String)
    (query_parameters : List (String × String)) :
    List ServiceInstance → List ServiceInstance × Bool
  | [] => ([], false)
  | inst :: rest =>
      if !(inst.health_status = "ALL" ∨
            inst.health_status = "HEALTHY_OR_ELSE_ALL" : Bool)
          && !(inst.health_status = health_status : Bool) then
        healthFilterLoop health_status query_parameters rest
      else
        let has_healthy : Bool := inst.health_status = "HEALTHY"
        let (fs, hh) := healthFilterLoop health_status query_parameters rest
        if matchesParams query_parameters inst then
          (inst :: fs, has_healthy || hh)
        else (fs, has_healthy || hh)

/-- Embeds `ServiceDiscoveryBackend.discover_instances`: validates the
health-status keyword, resolves the namespace by name and the service by
name within it, filters instances by their own health status and the query
parameters, post-filters to healthy instances for `HEALTHY_OR_ELSE_ALL`
when any healthy instance passed, applies the optional parameters with a
fall-back to the unfiltered list when nothing matches them, and returns the
instances together with their revision counters. -/
def discover_instances (b : Backend) (namespace_name service_name : String)
    (query_parameters optional_parameters : List (String × String))
    (health_status : String) :
    Except SDError (List ServiceInstance × List (String × Nat)) × Backend :=
  if !(health_status = "HEALTHY" ∨ health_status = "UNHEALTHY" ∨
        health_status = "ALL" ∨ health_status = "HEALTHY_OR_ELSE_ALL" : Bool)
  then (.error (.InvalidInput "Invalid health status"), b)
  else
    match (list_namespaces b).find? (fun ns => ns.name = namespace_name) with
    | none => (.error (.NamespaceNotFound namespace_name), b)
    | some ns =>
        match (list_services b).find?
            (fun sv => (sv.name = service_name : Bool)
              && (sv.namespace_id = ns.id : Bool)) with
        | none => (.error (.ServiceNotFound service_name), b)
        | some service =>
            match alookup b.services service.id with
            | none => (.error (.ServiceNotFound service.id), b)
            | some svStored =>
                let instances := svStored.instances
                let (filtered_instances, has_healthy) :=
                  healthFilterLoop health_status query_parameters instances
                let filtered_instances :=
                  if has_healthy
                      && (health_status = "HEALTHY_OR_ELSE_ALL" : Bool) then
                    filtered_instances.filter
                      (fun i => (i.health_status = "HEALTHY" : Bool))
                  else filtered_instances
                let opt_filtered_instances :=
                  filtered_instances.filter (matchesParams optional_parameters)
                let final_instances :=
                  if opt_filtered_instances.isEmpty then filtered_instances
                  else opt_filtered_instances
                let instance_revisions :=
                  final_instances.foldl
                    (fun m i => pyInsert m i.instance_id
                      ((alookup service.instances_revision i.instance_id).getD 0))
                    []
                (.ok (final_instances, instance_revisions), b)

/-- A concrete namespace used to exercise the theorems on explicit states. -/
def nsW : Namespace :=
  Namespace.make "123456789012" "us-east-1" "ns-name" "HTTP" "crid" "desc"
    (PyVal.d [("SOA", PyVal.d [])])
    (PyVal.d [("HttpName", PyVal.s "ns-name")]) none "aaaaaaaaaaaaaaaaaaaa" 100

/-- A concrete registered instance (initial health status `HEALTHY`). -/
def instW : ServiceInstance :=
  { service_id := "srv-11111111"
    instance_id := "i-1"
    attributes := [("k", "v")]
    creator_request_id := "crid"
    health_status := "HEALTHY" }

/-- A concrete service holding `instW`. -/
def svW : Service :=
  { id := "srv-11111111"
    arn := "arn:aws:servicediscovery:us-east-1:123456789012:service/srv-11111111"
    name := "svc"
    namespace_id := "ns-aaaaaaaaaaaaaaaaaaaa"
    description := "d"
    creator_request_id := "c"
    dns_config := none
    health_check_config := PyVal.d []
    health_check_custom_config := PyVal.d []
    service_type := "HTTP"
    created := 100
    instances := [instW]
    instances_revision := [("i-1", 1)] }

/-- A concrete operation with a live `NAMESPACE` target. -/
def opNsW : Operation :=
  Operation.make "CREATE_NAMESPACE" [("NAMESPACE", "ns-aaaaaaaaaaaaaaaaaaaa")]
    "r1" "r2" 100

/-- A concrete operation with only a `SERVICE` target. -/
def opSvcW : Operation :=
  Operation.make "UPDATE_SERVICE" [("SERVICE", "srv-11111111")] "q1" "q2" 100

/-- A concrete backend state holding `nsW`, `svW` and the two operations. -/
def bW : Backend :=
  { region_name := "us-east-1"
    account_id := "123456789012"
    operations := [("r1-r2", opNsW), ("q1-q2", opSvcW)]
    namespaces := [("ns-aaaaaaaaaaaaaaaaaaaa", nsW)]
    services := [("srv-11111111", svW)]
    tagger := [] }

/-- An update-details dict with no keys present. -/
def detailsW : UpdateDetails :=
  { description := none, dns_records := none, health_check_config := none }

lemma alookup_none_of_not_mem_keys {V : Type} {m : List (String × V)}
    {k : String} (h : k ∉ m.map Prod.fst) : alookup m k = none := by
  induction m with
  | nil => rfl
  | cons p rest ih =>
      obtain ⟨k2, v2⟩ := p
      simp only [List.map_cons, List.mem_cons] at h
      push_neg at h
      have hne : ¬ k2 = k := fun hk => h.1 hk.symm
      simp only [alookup, if_neg hne]
      exact ih h.2

lemma alookup_pyInsert_self {V : Type} (m : List (String × V)) (k : String)
    (v : V) : alookup (pyInsert m k v) k = some v := by
  induction m with
  | nil => simp [pyInsert, alookup]
  | cons p rest ih =>
      obtain ⟨k2, v2⟩ := p
      by_cases hk : k2 = k
      · simp [pyInsert, alookup, hk]
      · simp only [pyInsert, if_neg hk, alookup, if_neg hk]
        exact ih

lemma alookup_pyInsert_ne {V : Type} (m : List (String × V)) (k : String)
    (v : V) (k' : String) (h : k' ≠ k) :
    alookup (pyInsert m k v) k' = alookup m k' := by
  induction m with
  | nil => simp [pyInsert, alookup, Ne.symm h]
  | cons p rest ih =>
      obtain ⟨k2, v2⟩ := p
      by_cases hk : k2 = k
      · simp [pyInsert, alookup, hk, Ne.symm h]
      · simp only [pyInsert, if_neg hk, alookup]
        by_cases hk' : k2 = k'
        · simp [hk']
        · simp [if_neg hk', ih]

lemma pyErase_cons {V : Type} (k2 : String) (v2 : V)
    (rest : List (String × V)) (k : String) :
    pyErase ((k2, v2) :: rest) k =
      if k2 = k then pyErase rest k else (k2, v2) :: pyErase rest k := by
  by_cases hk : k2 = k <;> simp [pyErase, List.filter_cons, hk]

lemma alookup_pyErase_self {V : Type} (m : List (String × V)) (k : String) :
    alookup (pyErase m k) k = none := by
  induction m with
  | nil => rfl
  | cons p rest ih =>
      obtain ⟨k2, v2⟩ := p
      rw [pyErase_cons]
      by_cases hk : k2 = k
      · simpa [hk] using ih
      · simp only [if_neg hk, alookup, if_neg hk]
        exact ih

lemma alookup_pyErase_ne {V : Type} (m : List (String × V)) (k : String)
    (k' : String) (h : k' ≠ k) :
    alookup (pyErase m k) k' = alookup m k' := by
  induction m with
  | nil => rfl
  | cons p rest ih =>
      obtain ⟨k2, v2⟩ := p
      rw [pyErase_cons]
      by_cases hk : k2 = k
      · have hne : ¬ k2 = k' := fun he => h (he ▸ hk)
        simp only [if_pos hk, alookup, if_neg hne]
        exact ih
      · by_cases hk' : k2 = k'
        · rw [if_neg hk]
          simp [alookup, hk']
        · simp only [if_neg hk, alookup, if_neg hk']
          exact ih

lemma pyInsert_not_mem_append {V : Type} {m : List (String × V)} {k : String}
    (v : V) (h : alookup m k = none) : pyInsert m k v = m ++ [(k, v)] := by
  induction m with
  | nil => rfl
  | cons p rest ih =>
      obtain ⟨k2, v2⟩ := p
      by_cases hk : k2 = k
      · rw [alookup, if_pos hk] at h
        exact Option.noConfusion h
      · rw [alookup, if_neg hk] at h
        simp only [pyInsert, if_neg hk, List.cons_append, List.cons.injEq,
          true_and]
        exact ih h

lemma alookup_filter_none {V : Type} {m : List (String × V)} {k : String}
    (q : String × V → Bool) (h : alookup m k = none) :
    alookup (m.filter q) k = none := by
  induction m with
  | nil => rfl
  | cons p rest ih =>
      obtain ⟨k2, v2⟩ := p
      by_cases hk : k2 = k
      · rw [alookup, if_pos hk] at h
        exact Option.noConfusion h
      · rw [alookup, if_neg hk] at h
        by_cases hq : q (k2, v2)
        · rw [List.filter_cons_of_pos hq, alookup, if_neg hk]
          exact ih h
        · rw [List.filter_cons_of_neg (by simpa using hq)]
          exact ih h

lemma alookup_filter_some_iff {V : Type} {m : List (String × V)}
    (hnd : (m.map Prod.fst).Nodup) (q : String × V → Bool) (k : String)
    (v : V) :
    alookup (m.filter q) k = some v ↔
      alookup m k = some v ∧ q (k, v) = true := by
  induction m with
  | nil => simp [alookup]
  | cons p rest ih =>
      obtain ⟨k2, v2⟩ := p
      simp only [List.map_cons, List.nodup_cons] at hnd
      by_cases hk : k2 = k
      · subst hk
        by_cases hq : q (k2, v2)
        · rw [List.filter_cons_of_pos hq]
          simp only [alookup, if_pos rfl]
          constructor
          · intro hl
            injection hl with hv
            subst hv
            exact ⟨rfl, hq⟩
          · intro hr
            exact hr.1
        · rw [List.filter_cons_of_neg (by simpa using hq)]
          have hnone : alookup rest k2 = none :=
            alookup_none_of_not_mem_keys hnd.1
          rw [alookup_filter_none q hnone]
          simp only [alookup, if_pos rfl]
          constructor
          · intro hl
            exact Option.noConfusion hl
          · rintro ⟨h1, h2⟩
            injection h1 with hv
            subst hv
            exact absurd h2 (by simpa using hq)
      · by_cases hq : q (k2, v2)
        · rw [List.filter_cons_of_pos hq]
          simp only [alookup, if_neg hk]
          exact ih hnd.2
        · rw [List.filter_cons_of_neg (by simpa using hq)]
          simp only [alookup, if_neg hk]
          exact ih hnd.2

lemma mem_keys_pyInsert {V : Type} {m : List (String × V)} {k x : String}
    (v : V) (h : x ∈ (pyInsert m k v).map Prod.fst) :
    x ∈ m.map Prod.fst ∨ x = k := by
  induction m with
  | nil =>
      simp only [pyInsert, List.map_cons, List.map_nil,
        List.mem_singleton] at h
      exact Or.inr h
  | cons p rest ih =>
      obtain ⟨k2, v2⟩ := p
      by_cases hk : k2 = k
      · simp only [pyInsert, if_pos hk, List.map_cons, List.mem_cons] at h
        exact Or.inl (by simpa using h)
      · simp only [pyInsert, if_neg hk, List.map_cons, List.mem_cons] at h
        rcases h with h | h
        · exact Or.inl (by simp [h])
        · rcases ih h with h2 | h2
          · exact Or.inl (by simp [h2])
          · exact Or.inr h2

lemma nodup_keys_pyInsert {V : Type} {m : List (String × V)} {k : String}
    (v : V) (hnd : (m.map Prod.fst).Nodup) :
    ((pyInsert m k v).map Prod.fst).Nodup := by
  induction m with
  | nil => simp [pyInsert]
  | cons p rest ih =>
      obtain ⟨k2, v2⟩ := p
      simp only [List.map_cons, List.nodup_cons] at hnd
      by_cases hk : k2 = k
      · simp only [pyInsert, if_pos hk, List.map_cons, List.nodup_cons]
        exact ⟨hnd.1, hnd.2⟩
      · simp only [pyInsert, if_neg hk, List.map_cons, List.nodup_cons]
        refine ⟨fun hmem => ?_, ih hnd.2⟩
        rcases mem_keys_pyInsert v hmem with h2 | h2
        · exact hnd.1 h2
        · exact hk h2

lemma tag_resource_log_namespaces (b : Backend) (arn : String)
    (tags : List (String × String)) :
    (tag_resource_log b arn tags).namespaces = b.namespaces := by
  unfold tag_resource_log
  split <;> rfl

lemma tag_resource_log_services (b : Backend) (arn : String)
    (tags : List (String × String)) :
    (tag_resource_log b arn tags).services = b.services := by
  unfold tag_resource_log
  split <;> rfl

lemma tag_resource_log_operations (b : Backend) (arn : String)
    (tags : List (String × String)) :
    (tag_resource_log b arn tags).operations = b.operations := by
  unfold tag_resource_log
  split <;> rfl

end SD

namespace StepFn

/-- C1: the claim states that a resolved stack-top value that is not a JSON
string never matches under StringEquals, for every literal operand.  The
code computes `str(val) == value`, so the JSON number `1` against the
operand `"1"` pushes `True`: the string coercion makes a non-string value
match whenever its Python string form equals the operand. -/
theorem string_equals_matches_coerced_number :
    string_equals (Environment.mk [.vInt 1] .vNull [] []) (.vStr "1")
      = some (Environment.mk [.vBool true] .vNull [] []) := by
  decide

/-- C2: evaluating a comparison operator on an environment whose operand
stack is non-empty pops exactly the resolved value and pushes exactly one
boolean, so the stack keeps its size, its new top is a boolean, everything
below the top is unchanged, and the rest of the environment is untouched. -/
theorem comparison_eval_stack_discipline (c : ComparisonFunc)
    (env : Environment) (v : JsonVal) (rest : List JsonVal)
    (h : env.stack = v :: rest) :
    ∃ env' b, c.eval_body env = some env' ∧
      env'.stack = JsonVal.vBool b :: rest ∧
      env'.stack.length = env.stack.length ∧
      env'.payload = env.payload ∧ env'.context = env.context ∧
      env'.events = env.events := by
  obtain ⟨op, value⟩ := c
  cases op
  refine ⟨{ env with stack := .vBool (pyEqStrJson (pyStr v) value) :: rest },
    pyEqStrJson (pyStr v) value, ?_, rfl, ?_, rfl, rfl, rfl⟩
  · simp [ComparisonFunc.eval_body, string_equals, h]
  · simp [h]

/-- Witness for C2: the discipline at a concrete environment and operand. -/
theorem comparison_eval_stack_discipline_witness :
    ∃ env' b,
      ComparisonFunc.eval_body ⟨.StringEquals, .vStr "A"⟩
          (Environment.mk [.vStr "A"] .vNull [] []) = some env' ∧
      env'.stack = JsonVal.vBool b :: ([] : List JsonVal) ∧
      env'.stack.length
        = (Environment.mk [.vStr "A"] .vNull [] []).stack.length ∧
      env'.payload = (Environment.mk [.vStr "A"] .vNull [] []).payload ∧
      env'.context = (Environment.mk [.vStr "A"] .vNull [] []).context ∧
      env'.events = (Environment.mk [.vStr "A"] .vNull [] []).events :=
  comparison_eval_stack_discipline ⟨.StringEquals, .vStr "A"⟩
    (Environment.mk [.vStr "A"] .vNull [] []) (.vStr "A") [] rfl

/-- C3: for the Choice state with the single rule StringEquals "A" to X and
Default Y, input with V = "A" makes the comparison push True and selects X,
and input with V = "B" makes it push False and selects the default Y. -/
theorem choice_string_equals_example :
    (string_equals (Environment.mk [.vStr "A"] .vNull [] []) (.vStr "A")
      = some (Environment.mk [.vBool true] .vNull [] []))
  ∧ (choiceNext [("V", .vStr "A")]
        [⟨"V", ⟨.StringEquals, .vStr "A"⟩, "X"⟩] "Y" = some "X")
  ∧ (string_equals (Environment.mk [.vStr "B"] .vNull [] []) (.vStr "A")
      = some (Environment.mk [.vBool false] .vNull [] []))
  ∧ (choiceNext [("V", .vStr "B")]
        [⟨"V", ⟨.StringEquals, .vStr "A"⟩, "X"⟩] "Y" = some "Y") :=
  ⟨by decide, by decide, by decide, by decide⟩

/-- C7: comparison evaluation is a pure function of the passed environment's
stack and the operand: evaluating the same comparison on two environments
with equal stacks yields equal stacks (no process-wide shared state can
influence the result, since none exists in the embedding). -/
theorem comparison_eval_pure_stack (c : ComparisonFunc) (e1 e2 : Environment)
    (h : e1.stack = e2.stack) :
    (c.eval_body e1).map Environment.stack
      = (c.eval_body e2).map Environment.stack := by
  obtain ⟨op, value⟩ := c
  cases op
  simp only [ComparisonFunc.eval_body, string_equals, h]
  rcases hs : e2.stack with _ | ⟨v, rest⟩ <;> simp

/-- Witness for C7: two environments equal on the stack but different in
payload, context store and event log evaluate to the same stack. -/
theorem comparison_eval_pure_stack_witness :
    (ComparisonFunc.eval_body ⟨.StringEquals, .vStr "A"⟩
        (Environment.mk [.vStr "A"] .vNull [] [])).map Environment.stack
      = (ComparisonFunc.eval_body ⟨.StringEquals, .vStr "A"⟩
        (Environment.mk [.vStr "A"] (.vStr "p") [("i", .vInt 3)]
          ["e"])).map Environment.stack :=
  comparison_eval_pure_stack ⟨.StringEquals, .vStr "A"⟩
    (Environment.mk [.vStr "A"] .vNull [] [])
    (Environment.mk [.vStr "A"] (.vStr "p") [("i", .vInt 3)] ["e"]) rfl

end StepFn

namespace SD

/-- C4: `get_namespace` returns the stored namespace exactly when the id is
a key of the namespaces store and fails with `NamespaceNotFound` otherwise;
`get_service` likewise with `ServiceNotFound`; both leave the backend state
unchanged in every case. -/
theorem get_lookup_characterisation (b : Backend) (nid sid : String) :
    (∀ ns, alookup b.namespaces nid = some ns →
        get_namespace b nid = (.ok ns, b))
  ∧ (alookup b.namespaces nid = none →
        get_namespace b nid = (.error (.NamespaceNotFound nid), b))
  ∧ (∀ sv, alookup b.services sid = some sv →
        get_service b sid = (.ok sv, b))
  ∧ (alookup b.services sid = none →
        get_service b sid = (.error (.ServiceNotFound sid), b)) := by
  refine ⟨fun ns h => ?_, fun h => ?_, fun sv h => ?_, fun h => ?_⟩ <;>
    simp [get_namespace, get_service, h]

/-- Witness for C4 on the concrete backend `bW`. -/
theorem get_lookup_characterisation_witness :
    get_namespace bW "ns-aaaaaaaaaaaaaaaaaaaa" = (.ok nsW, bW)
  ∧ get_service bW "missing" = (.error (.ServiceNotFound "missing"), bW) :=
  ⟨(get_lookup_characterisation bW "ns-aaaaaaaaaaaaaaaaaaaa" "missing").1
      nsW rfl,
   (get_lookup_characterisation bW "ns-aaaaaaaaaaaaaaaaaaaa"
      "missing").2.2.2 rfl⟩

/-- C5: create/get round-trip.  After `create_http_namespace` the created
namespace sits in the store under its generated id `ns-<rid>` and
`get_namespace` returns exactly it; after `create_service` the returned
service sits in the store under its generated id and `get_service` returns
exactly it. -/
theorem create_get_roundtrip (b : Backend) (name cr desc : String)
    (tags : List (String × String)) (nsRid r1 r2 : String) (now : Nat)
    (sname snsid scr sdesc : String) (sdns : Option PyVal)
    (shcc shccc : PyVal) (stags : List (String × String))
    (stype srid : String) (snow : Nat) :
    (alookup
        (create_http_namespace b name cr desc tags nsRid r1 r2 now).2.namespaces
        ("ns-" ++ nsRid)
      = some (Namespace.make b.account_id b.region_name name "HTTP" cr desc
          (PyVal.d [("SOA", PyVal.d [])])
          (PyVal.d [("HttpName", PyVal.s name)]) none nsRid now))
  ∧ ((get_namespace
        (create_http_namespace b name cr desc tags nsRid r1 r2 now).2
        ("ns-" ++ nsRid)).1
      = .ok (Namespace.make b.account_id b.region_name name "HTTP" cr desc
          (PyVal.d [("SOA", PyVal.d [])])
          (PyVal.d [("HttpName", PyVal.s name)]) none nsRid now))
  ∧ (alookup
        (create_service b sname snsid scr sdesc sdns shcc shccc stags stype
          srid snow).2.services
        (create_service b sname snsid scr sdesc sdns shcc shccc stags stype
          srid snow).1.id
      = some (create_service b sname snsid scr sdesc sdns shcc shccc stags
          stype srid snow).1)
  ∧ ((get_service
        (create_service b sname snsid scr sdesc sdns shcc shccc stags stype
          srid snow).2
        (create_service b sname snsid scr sdesc sdns shcc shccc stags stype
          srid snow).1.id).1
      = .ok (create_service b sname snsid scr sdesc sdns shcc shccc stags
          stype srid snow).1) := by
  refine ⟨?_, ?_, ?_, ?_⟩ <;>
    simp [create_http_namespace, create_service, create_operation,
      get_namespace, get_service, tag_resource_log_namespaces,
      tag_resource_log_services, Namespace.make, Service.make,
      alookup_pyInsert_self]

/-- C6: `delete_namespace` on a present id removes exactly that entry,
leaves every other namespace and the whole services store unchanged, and
(when the generated operation id is fresh) appends exactly one
`DELETE_NAMESPACE` operation; on an absent id it raises `NamespaceNotFound`
and the whole state is unchanged. -/
theorem delete_namespace_frame (b : Backend) (nid r1 r2 : String)
    (now : Nat) :
    (alookup b.namespaces nid = none →
        delete_namespace b nid r1 r2 now
          = (.error (.NamespaceNotFound nid), b))
  ∧ (∀ ns, alookup b.namespaces nid = some ns →
        (delete_namespace b nid r1 r2 now).1 = .ok (r1 ++ "-" ++ r2)
      ∧ alookup (delete_namespace b nid r1 r2 now).2.namespaces nid = none
      ∧ (∀ k, k ≠ nid →
          alookup (delete_namespace b nid r1 r2 now).2.namespaces k
            = alookup b.namespaces k)
      ∧ (delete_namespace b nid r1 r2 now).2.services = b.services
      ∧ (alookup b.operations (r1 ++ "-" ++ r2) = none →
          (delete_namespace b nid r1 r2 now).2.operations
            = b.operations ++ [(r1 ++ "-" ++ r2,
                Operation.make "DELETE_NAMESPACE" [("NAMESPACE", nid)]
                  r1 r2 now)])) := by
  constructor
  · intro h
    simp [delete_namespace, h]
  · intro ns h
    have hd : delete_namespace b nid r1 r2 now
        = (.ok (r1 ++ "-" ++ r2),
            { b with
              namespaces := pyErase b.namespaces nid
              operations := pyInsert b.operations (r1 ++ "-" ++ r2)
                (Operation.make "DELETE_NAMESPACE" [("NAMESPACE", nid)]
                  r1 r2 now) }) := by
      simp [delete_namespace, h, create_operation, Operation.make]
    rw [hd]
    exact ⟨rfl, alookup_pyErase_self _ _,
      fun k hk => alookup_pyErase_ne _ _ _ hk, rfl,
      fun hfresh => pyInsert_not_mem_append _ hfresh⟩

/-- Witness for C6: deleting the stored namespace of `bW`. -/
theorem delete_namespace_frame_witness :
    (delete_namespace bW "ns-aaaaaaaaaaaaaaaaaaaa" "x1" "x2" 200).1
      = .ok ("x1" ++ "-" ++ "x2")
  ∧ alookup (delete_namespace bW "ns-aaaaaaaaaaaaaaaaaaaa" "x1" "x2"
        200).2.namespaces "ns-aaaaaaaaaaaaaaaaaaaa" = none
  ∧ (delete_namespace bW "ns-aaaaaaaaaaaaaaaaaaaa" "x1" "x2" 200).2.services
      = bW.services
  ∧ (delete_namespace bW "ns-aaaaaaaaaaaaaaaaaaaa" "x1" "x2"
        200).2.operations
      = bW.operations ++ [("x1" ++ "-" ++ "x2",
          Operation.make "DELETE_NAMESPACE"
            [("NAMESPACE", "ns-aaaaaaaaaaaaaaaaaaaa")] "x1" "x2" 200)] := by
  have h := (delete_namespace_frame bW "ns-aaaaaaaaaaaaaaaaaaaa" "x1" "x2"
    200).2 nsW rfl
  exact ⟨h.1, h.2.1, h.2.2.2.1, h.2.2.2.2 rfl⟩

/-- C8: `get_instances_health_status` with a present service raises
`InvalidInput` for a `None` filter as well as for any list of instance ids:
the `None` default is first replaced by the list of all registered ids, and
the `isinstance(instances, list)` guard then fires on every path. -/
theorem get_instances_health_status_always_raises (b : Backend)
    (service_id : String) (sv : Service) (instances : Option (List String))
    (h : alookup b.services service_id = some sv) :
    get_instances_health_status b service_id instances
      = (.error (.InvalidInput "Instances must be a list"), b) := by
  simp [get_instances_health_status, h, isPyList]

/-- Witness for C8: both a `None` argument and an explicit list raise. -/
theorem get_instances_health_status_always_raises_witness :
    get_instances_health_status bW "srv-11111111" none
      = (.error (.InvalidInput "Instances must be a list"), bW) :=
  get_instances_health_status_always_raises bW "srv-11111111" svW none rfl

end SD

namespace SD

lemma healthFilterLoop_all_skipped (hs : String)
    (qp : List (String × String)) (l : List ServiceInstance)
    (hhs : hs = "ALL" ∨ hs = "HEALTHY_OR_ELSE_ALL")
    (hl : ∀ i ∈ l, i.health_status = "HEALTHY"
        ∨ i.health_status = "UNHEALTHY") :
    healthFilterLoop hs qp l = ([], false) := by
  induction l with
  | nil => rfl
  | cons i rest ih =>
      have hi := hl i (List.mem_cons_self i rest)
      have hrest := fun j hj => hl j (List.mem_cons_of_mem i hj)
      have hskip : (!(i.health_status = "ALL" ∨
            i.health_status = "HEALTHY_OR_ELSE_ALL" : Bool)
          && !(i.health_status = hs : Bool)) = true := by
        rcases hi with h1 | h1 <;> rcases hhs with h2 | h2 <;>
          rw [h1, h2] <;> decide
      simp only [healthFilterLoop, hskip, if_true]
      exact ih hrest

lemma alookup_filter_none_of_pred_false {V : Type} {m : List (String × V)}
    (hnd : (m.map Prod.fst).Nodup) (q : String × V → Bool) (k : String)
    (v : V) (hv : alookup m k = some v) (hq : q (k, v) = false) :
    alookup (m.filter q) k = none := by
  cases hres : alookup (m.filter q) k with
  | none => rfl
  | some w =>
      obtain ⟨h1, h2⟩ := (alookup_filter_some_iff hnd q k w).1 hres
      rw [hv] at h1
      injection h1 with h1
      rw [h1] at hq
      rw [h2] at hq
      exact Bool.noConfusion hq

/-- C9: with a requested health status of `ALL` or `HEALTHY_OR_ELSE_ALL`
and every registered instance carrying its own status `HEALTHY` or
`UNHEALTHY`, `discover_instances` returns an empty instance list and an
empty revision map: the per-instance filter compares the instance's own
status (never one of the keywords) with the requested keyword and skips
every instance. -/
theorem discover_instances_keyword_returns_empty (b : Backend)
    (nsName svName : String) (qp op : List (String × String)) (hs : String)
    (ns : Namespace) (sv svStored : Service)
    (hhs : hs = "ALL" ∨ hs = "HEALTHY_OR_ELSE_ALL")
    (hns : (list_namespaces b).find? (fun n => n.name = nsName) = some ns)
    (hsv : (list_services b).find?
        (fun s => (s.name = svName : Bool)
          && (s.namespace_id = ns.id : Bool)) = some sv)
    (hstored : alookup b.services sv.id = some svStored)
    (hinst : ∀ i ∈ svStored.instances,
        i.health_status = "HEALTHY" ∨ i.health_status = "UNHEALTHY") :
    discover_instances b nsName svName qp op hs = (.ok ([], []), b) := by
  have hloop := healthFilterLoop_all_skipped hs qp svStored.instances hhs
    hinst
  rcases hhs with h | h <;> subst h <;>
    simp [discover_instances, hns, hsv, hstored, hloop]

/-- Witness for C9 on the concrete backend `bW` with health status ALL. -/
theorem discover_instances_keyword_returns_empty_witness :
    discover_instances bW "ns-name" "svc" [] [] "ALL" = (.ok ([], []), bW) :=
  discover_instances_keyword_returns_empty bW "ns-name" "svc" [] [] "ALL"
    nsW svW svW (Or.inl rfl) rfl rfl rfl
    (by
      intro i hi
      have hinst : svW.instances = [instW] := rfl
      rw [hinst, List.mem_singleton] at hi
      subst hi
      exact Or.inl rfl)

end SD

namespace SD

/-- C10: every `list_operations` call rewrites the operations store to
exactly those previously stored operations whose `"NAMESPACE"` target names
a currently present namespace (characterised below for stores with distinct
keys, which Python dicts guarantee); an operation without a `"NAMESPACE"`
target is never kept, so the operations created by `update_service`,
`register_instance` and `deregister_instance` are deleted by the call. -/
theorem list_operations_purge (b : Backend)
    (hnd : (b.operations.map Prod.fst).Nodup) :
    (∀ oid op, alookup (list_operations b).2.operations oid = some op ↔
        (alookup b.operations oid = some op
          ∧ operationKept b.namespaces op = true))
  ∧ (∀ op, alookup op.targets "NAMESPACE" = none →
        operationKept b.namespaces op = false)
  ∧ (∀ sid details r1 r2 now b2 oid,
        update_service b sid details r1 r2 now = (.ok oid, b2) →
        alookup (list_operations b2).2.operations oid = none)
  ∧ (∀ sid iid cr attrs ir r1 r2 now b2 oid,
        register_instance b sid iid cr attrs ir r1 r2 now = (.ok oid, b2) →
        alookup (list_operations b2).2.operations oid = none)
  ∧ (∀ sid iid r1 r2 now b2 oid,
        deregister_instance b sid iid r1 r2 now = (.ok oid, b2) →
        alookup (list_operations b2).2.operations oid = none) := by
  refine ⟨?_, ?_, ?_, ?_, ?_⟩
  · intro oid op
    simpa [list_operations] using
      alookup_filter_some_iff hnd
        (fun p => operationKept b.namespaces p.2) oid op
  · intro op h
    simp [operationKept, h]
  · intro sid details r1 r2 now b2 oid heq
    cases hsv : alookup b.services sid with
    | none => simp [update_service, hsv] at heq
    | some sv =>
        simp only [update_service, hsv, create_operation,
          Prod.mk.injEq] at heq
        obtain ⟨h1, h2⟩ := heq
        injection h1 with h1
        subst h1
        subst h2
        simp only [list_operations]
        exact alookup_filter_none_of_pred_false
          (nodup_keys_pyInsert _ hnd) _ _ _
          (alookup_pyInsert_self _ _ _)
          (by simp [operationKept, Operation.make, alookup])
  · intro sid iid cr attrs ir r1 r2 now b2 oid heq
    cases hsv : alookup b.services sid with
    | none => simp [register_instance, hsv] at heq
    | some sv =>
        simp only [register_instance, hsv, create_operation,
          Prod.mk.injEq] at heq
        obtain ⟨h1, h2⟩ := heq
        injection h1 with h1
        subst h1
        subst h2
        simp only [list_operations]
        exact alookup_filter_none_of_pred_false
          (nodup_keys_pyInsert _ hnd) _ _ _
          (alookup_pyInsert_self _ _ _)
          (by simp [operationKept, Operation.make, alookup])
  · intro sid iid r1 r2 now b2 oid heq
    cases hsv : alookup b.services sid with
    | none => simp [deregister_instance, hsv] at heq
    | some sv =>
        by_cases hany : sv.instances.any (fun i => i.instance_id = iid)
        · simp only [deregister_instance, hsv, hany, if_true, if_pos,
            create_operation, Prod.mk.injEq] at heq
          obtain ⟨h1, h2⟩ := heq
          injection h1 with h1
          subst h1
          subst h2
          simp only [list_operations]
          exact alookup_filter_none_of_pred_false
            (nodup_keys_pyInsert _ hnd) _ _ _
            (alookup_pyInsert_self _ _ _)
            (by simp [operationKept, Operation.make, alookup])
        · simp [deregister_instance, hsv, hany] at heq

/-- Witness for C10: the namespace-targeted operation of `bW` survives the
purge, the service-targeted one is never kept, and the operation created by
a concrete `update_service` call is deleted by the next `list_operations`. -/
theorem list_operations_purge_witness :
    alookup (list_operations bW).2.operations "r1-r2" = some opNsW
  ∧ operationKept bW.namespaces opSvcW = false
  ∧ alookup (list_operations (update_service bW "srv-11111111" detailsW
        "u1" "u2" 300).2).2.operations "u1-u2" = none :=
  ⟨((list_operations_purge bW (by decide)).1 "r1-r2" opNsW).mpr
      ⟨rfl, by decide⟩,
   (list_operations_purge bW (by decide)).2.1 opSvcW rfl,
   (list_operations_purge bW (by decide)).2.2.1 "srv-11111111" detailsW
      "u1" "u2" 300
      (update_service bW "srv-11111111" detailsW "u1" "u2" 300).2
      "u1-u2" rfl⟩

end SD
